import Mathlib

/-!
Shallow embedding of the customer-ticket system's core:
`database.py` (ticket lifecycle), `users.py` (directory),
`permissions.py` (permission engine) and `allocation.py` (workload allocator).

Machine conventions: timestamps are naturals passed explicitly (`now`);
the SQLite store is a pure `DB` record of lists; Python exceptions become
`Except` errors; Python `None` becomes `Option.none`.
-/

namespace Tickets

/-- A row of the `users` table (users.py). -/
structure User where
  email : String
  name : String
  role : String
  is_active : Bool
  deriving DecidableEq

/-- A row of the `tickets` table (database.py). -/
structure Ticket where
  id : Nat
  title : String
  description : String
  priority : String
  status : String
  assigned_to : Option String
  created_by : Option String
  created_at : Nat
  updated_at : Nat
  resolved_at : Option Nat
  closed_at : Option Nat
  deriving DecidableEq

/-- A row of the `ticket_history` table (database.py). -/
structure HistoryEntry where
  ticket_id : Nat
  field_changed : String
  old_value : Option String
  new_value : Option String
  changed_by : String
  changed_at : Nat
  deriving DecidableEq

/-- The whole SQLite store: `users`, `tickets` and `ticket_history` tables.
`next_id` models the `AUTOINCREMENT` counter of the tickets table. -/
structure DB where
  users : List User
  tickets : List Ticket
  history : List HistoryEntry
  next_id : Nat
  deriving DecidableEq

/-- Errors raised by database.py; both are Python `ValueError`s, split by
message into the spec's ValidationError / NotFound kinds. -/
inductive DBErr where
  | validationError (msg : String)
  | notFound (msg : String)
  deriving DecidableEq

instance {ε α : Type} [DecidableEq ε] [DecidableEq α] : DecidableEq (Except ε α) :=
  fun a b =>
    match a, b with
    | .ok x, .ok y =>
      if h : x = y then .isTrue (h ▸ rfl) else .isFalse (fun hh => h (by injection hh))
    | .error x, .error y =>
      if h : x = y then .isTrue (h ▸ rfl) else .isFalse (fun hh => h (by injection hh))
    | .ok _, .error _ => .isFalse (fun hh => Except.noConfusion hh)
    | .error _, .ok _ => .isFalse (fun hh => Except.noConfusion hh)

def ROLE_CUSTOMER : String := "customer"

def ROLE_HELPER : String := "helper"

def ROLE_ADMIN : String := "admin"

def VALID_PRIORITIES : List String := ["Low", "Medium", "High", "Critical"]

def VALID_STATUSES : List String := ["Open", "In Progress", "Resolved", "Closed", "On Hold"]

/-- Python `str.strip()`: drop leading and trailing whitespace. -/
def pyStrip (s : String) : String :=
  ⟨((s.data.dropWhile Char.isWhitespace).reverse.dropWhile Char.isWhitespace).reverse⟩

/-- Python `str.lower()` (ASCII letters, which covers the stored data). -/
def pyLower (s : String) : String := ⟨s.data.map Char.toLower⟩

/-- The `email.lower().strip()` normalization applied by users.py. -/
def pyNormEmail (s : String) : String := pyStrip (pyLower s)

/-- users.py `get_user_by_email`: SQL lookup by the normalized email. -/
def get_user_by_email (db : DB) (email : String) : Option User :=
  db.users.find? (fun u => u.email = pyNormEmail email)

/-- database.py `get_ticket`: `SELECT * FROM tickets WHERE id=?` (first row). -/
def get_ticket (db : DB) (ticket_id : Nat) : Option Ticket :=
  db.tickets.find? (fun t => t.id = ticket_id)

/-- Equality filters accepted by `get_all_tickets` (its whitelist). -/
def allowedFilterKeys : List String := ["status", "priority", "assigned_to", "created_by"]

/-- The column a filter key selects, as stored (NULL-able columns are `Option`). -/
def ticketField (t : Ticket) (k : String) : Option String :=
  if k = "status" then some t.status
  else if k = "priority" then some t.priority
  else if k = "assigned_to" then t.assigned_to
  else if k = "created_by" then t.created_by
  else none

/-- A Python dict of filters, as an insertion-ordered association list. -/
def Filters := List (String × String)

instance : DecidableEq Filters := inferInstanceAs (DecidableEq (List (String × String)))

instance : Membership (String × String) Filters := inferInstanceAs (Membership _ (List (String × String)))

instance : Append Filters := inferInstanceAs (Append (List (String × String)))

/-- One ticket against the conjunction of whitelisted equality conditions
(`WHERE k1=? AND k2=? ...`; non-whitelisted keys are dropped; SQL `col = v`
is false on NULL columns). -/
def matchesFilter (t : Ticket) (f : Filters) : Bool :=
  (f : List (String × String)).all
    (fun kv => if allowedFilterKeys.contains kv.1 then ticketField t kv.1 = some kv.2 else true)

/-- Descending order on `created_at` (the `ORDER BY created_at DESC`). -/
def createdGE (a b : Ticket) : Prop := b.created_at ≤ a.created_at

instance : DecidableRel createdGE := fun a b => inferInstanceAs (Decidable (b.created_at ≤ a.created_at))

instance : IsTotal Ticket createdGE := ⟨fun a b => (Nat.le_total a.created_at b.created_at).symm⟩

instance : IsTrans Ticket createdGE := ⟨fun _ _ _ h1 h2 => Nat.le_trans h2 h1⟩

/-- database.py `get_all_tickets`: whitelisted AND-filter, newest first. -/
def get_all_tickets (db : DB) (f : Filters) : List Ticket :=
  List.insertionSort createdGE (db.tickets.filter (fun t => matchesFilter t f))

/-- Python truthiness of an optional string argument. -/
def pyTruthy : Option String → Bool
  | none => false
  | some s => !(s = "")

/-- The `str(old) if old else None` conversion on an optional old value. -/
def pyStrOrNone : Option String → Option String
  | none => none
  | some s => if s = "" then none else some s

/-- database.py `create_ticket`. Fails when the title is empty/whitespace or
the priority is not whitelisted; inserts the row (title stripped, status
Open, unassigned, both timestamps `now`) plus one "created" history entry,
then returns the re-fetched row. -/
def create_ticket (db : DB) (title description priority : String)
    (created_by : Option String) (now : Nat) : Except DBErr (DB × Ticket) :=
  if pyStrip title = "" then .error (.validationError "Title cannot be empty")
  else if ¬ VALID_PRIORITIES.contains priority then
    .error (.validationError "Invalid priority")
  else
    let tid := db.next_id
    let t : Ticket :=
      { id := tid, title := pyStrip title, description := description,
        priority := priority, status := "Open", assigned_to := none,
        created_by := created_by, created_at := now, updated_at := now,
        resolved_at := none, closed_at := none }
    let entry : HistoryEntry :=
      { ticket_id := tid, field_changed := "created", old_value := none,
        new_value := some "Open", changed_by := created_by.getD "System",
        changed_at := now }
    let db' : DB :=
      { db with tickets := db.tickets ++ [t],
                history := db.history ++ [entry],
                next_id := tid + 1 }
    match get_ticket db' tid with
    | some t' => .ok (db', t')
    | none => .error (.notFound "Ticket not found")

/-- The pending status change of `update_ticket`: `(old, new)` exactly when
the argument is truthy and differs from the stored status. -/
def statusChangeOf (status : Option String) (t : Ticket) : Option (String × String) :=
  match status with
  | none => none
  | some s => if s ≠ "" ∧ s ≠ t.status then some (t.status, s) else none

/-- The pending assignee change of `update_ticket`: `(old, new)` exactly when
the argument is not `None` and differs from the stored assignee. -/
def assignChangeOf (assigned_to : Option String) (t : Ticket) :
    Option (Option String × String) :=
  match assigned_to with
  | none => none
  | some a => if t.assigned_to ≠ some a then some (t.assigned_to, a) else none

/-- The ticket row after `update_ticket`'s SQL updates: the per-field writes
(each also setting `updated_at`), then the `resolved_at` / `closed_at` fixes
guarded by the pre-call status. -/
def ticketAfterUpdate (t : Ticket) (status assigned_to : Option String) (now : Nat) : Ticket :=
  let t1 := match statusChangeOf status t with
    | some (_, s) => { t with status := s, updated_at := now }
    | none => t
  let t2 := match assignChangeOf assigned_to t with
    | some (_, a) => { t1 with assigned_to := some a, updated_at := now }
    | none => t1
  let t3 := if status = some "Resolved" ∧ t.status ≠ "Resolved"
    then { t2 with resolved_at := some now } else t2
  if status = some "Closed" ∧ t.status ≠ "Closed"
    then { t3 with closed_at := some now } else t3

/-- The history entries `update_ticket` appends: one per changed field, in
the dict's insertion order (status first). -/
def historyForUpdate (tid : Nat) (t : Ticket) (status assigned_to changed_by : Option String)
    (now : Nat) : List HistoryEntry :=
  (match statusChangeOf status t with
   | some (o, n) =>
     [{ ticket_id := tid, field_changed := "status",
        old_value := if o = "" then none else some o,
        new_value := if n = "" then none else some n,
        changed_by := changed_by.getD "System", changed_at := now }]
   | none => []) ++
  (match assignChangeOf assigned_to t with
   | some (o, n) =>
     [{ ticket_id := tid, field_changed := "assigned_to",
        old_value := pyStrOrNone o,
        new_value := if n = "" then none else some n,
        changed_by := changed_by.getD "System", changed_at := now }]
   | none => [])

/-- SQL `UPDATE tickets ... WHERE id=?`: every row with this id is replaced. -/
def replaceTicket (ts : List Ticket) (tid : Nat) (t' : Ticket) : List Ticket :=
  ts.map (fun u => if u.id = tid then t' else u)

/-- database.py `update_ticket`. A truthy invalid status fails first; a
missing ticket fails NotFound; otherwise each supplied-and-different field is
written with a history entry, the lifecycle timestamps are fixed against the
pre-call status, and the re-fetched row is returned. -/
def update_ticket (db : DB) (ticket_id : Nat) (status assigned_to changed_by : Option String)
    (now : Nat) : Except DBErr (DB × Ticket) :=
  if pyTruthy status ∧ ¬ VALID_STATUSES.contains (status.getD "") then
    .error (.validationError "Invalid status")
  else
    match get_ticket db ticket_id with
    | none => .error (.notFound "Ticket not found")
    | some t =>
      let t' := ticketAfterUpdate t status assigned_to now
      let db' : DB :=
        { db with tickets := replaceTicket db.tickets ticket_id t',
                  history := db.history ++ historyForUpdate ticket_id t status assigned_to changed_by now }
      match get_ticket db' ticket_id with
      | some t'' => .ok (db', t'')
      | none => .error (.notFound "Ticket not found")

/-- database.py `delete_ticket`: cascading delete, `false` when absent. -/
def delete_ticket (db : DB) (ticket_id : Nat) : DB × Bool :=
  if (db.tickets.find? (fun t => t.id = ticket_id)).isSome then
    ({ db with tickets := db.tickets.filter (fun t => t.id ≠ ticket_id),
               history := db.history.filter (fun h => h.ticket_id ≠ ticket_id) }, true)
  else (db, false)

/-- Lookup used by the ticket-scoped checks when the caller's kwargs may
lack the id (`kwargs.get("ticket_id")` is `None`; `WHERE id=NULL` matches
no row). -/
def get_ticket_opt (db : DB) : Option Nat → Option Ticket
  | none => none
  | some tid => get_ticket db tid

/-- permissions.py `can_create_ticket`: any known active user. -/
def can_create_ticket (db : DB) (user_email : String) : Bool :=
  match get_user_by_email db user_email with
  | some u => u.is_active
  | none => false

/-- permissions.py `can_view_ticket`: admin always; helper when assigned;
customer when creator; unknown user, inactive user or missing ticket deny. -/
def can_view_ticket (db : DB) (user_email : String) (ticket_id : Option Nat) : Bool :=
  match get_user_by_email db user_email with
  | none => false
  | some u =>
    if ¬ u.is_active then false
    else match get_ticket_opt db ticket_id with
      | none => false
      | some t =>
        if u.role = ROLE_ADMIN then true
        else if u.role = ROLE_HELPER then t.assigned_to = some user_email
        else if u.role = ROLE_CUSTOMER then t.created_by = some user_email
        else false

/-- permissions.py `can_view_all_tickets`: active admin only. -/
def can_view_all_tickets (db : DB) (user_email : String) : Bool :=
  match get_user_by_email db user_email with
  | some u => u.role = ROLE_ADMIN ∧ u.is_active
  | none => false

/-- permissions.py `can_update_ticket`: admin always; helper when assigned;
customers never. -/
def can_update_ticket (db : DB) (user_email : String) (ticket_id : Option Nat) : Bool :=
  match get_user_by_email db user_email with
  | none => false
  | some u =>
    if ¬ u.is_active then false
    else match get_ticket_opt db ticket_id with
      | none => false
      | some t =>
        if u.role = ROLE_ADMIN then true
        else if u.role = ROLE_HELPER then t.assigned_to = some user_email
        else false

/-- permissions.py `can_delete_ticket`: active admin only. -/
def can_delete_ticket (db : DB) (user_email : String) : Bool :=
  match get_user_by_email db user_email with
  | some u => u.role = ROLE_ADMIN ∧ u.is_active
  | none => false

/-- permissions.py `can_assign_ticket`: active admin only. -/
def can_assign_ticket (db : DB) (user_email : String) : Bool :=
  match get_user_by_email db user_email with
  | some u => u.role = ROLE_ADMIN ∧ u.is_active
  | none => false

/-- permissions.py `can_add_comment`: admin always; helper when assigned;
customer when creator. -/
def can_add_comment (db : DB) (user_email : String) (ticket_id : Option Nat) : Bool :=
  match get_user_by_email db user_email with
  | none => false
  | some u =>
    if ¬ u.is_active then false
    else match get_ticket_opt db ticket_id with
      | none => false
      | some t =>
        if u.role = ROLE_ADMIN then true
        else if u.role = ROLE_HELPER then t.assigned_to = some user_email
        else if u.role = ROLE_CUSTOMER then t.created_by = some user_email
        else false

/-- permissions.py `can_add_internal_comment`: admin always; helper when
assigned; customers never. Requires both arguments. -/
def can_add_internal_comment (db : DB) (user_email : String) (ticket_id : Option Nat) : Bool :=
  match get_user_by_email db user_email with
  | none => false
  | some u =>
    if ¬ u.is_active then false
    else match get_ticket_opt db ticket_id with
      | none => false
      | some t =>
        if u.role = ROLE_ADMIN then true
        else if u.role = ROLE_HELPER then t.assigned_to = some user_email
        else false

/-- permissions.py `can_view_internal_comments`: active helper or admin. -/
def can_view_internal_comments (db : DB) (user_email : String) : Bool :=
  match get_user_by_email db user_email with
  | some u => (u.role = ROLE_HELPER ∨ u.role = ROLE_ADMIN) ∧ u.is_active
  | none => false

/-- permissions.py `can_view_workload`: active helper or admin. -/
def can_view_workload (db : DB) (user_email : String) : Bool :=
  match get_user_by_email db user_email with
  | some u => (u.role = ROLE_HELPER ∨ u.role = ROLE_ADMIN) ∧ u.is_active
  | none => false

/-- permissions.py `can_manage_users`: active admin only. -/
def can_manage_users (db : DB) (user_email : String) : Bool :=
  match get_user_by_email db user_email with
  | some u => u.role = ROLE_ADMIN ∧ u.is_active
  | none => false

/-- permissions.py `can_view_analytics`: active helper or admin. -/
def can_view_analytics (db : DB) (user_email : String) : Bool :=
  match get_user_by_email db user_email with
  | some u => (u.role = ROLE_HELPER ∨ u.role = ROLE_ADMIN) ∧ u.is_active
  | none => false

/-- Outcome of `require_permission`: a clean decision, or one of the other
Python exceptions that call can raise. -/
inductive PermResult where
  | ok
  | permissionDenied (role : String) (action : String)
  | typeErr (msg : String)
  | unknownAction (action : String)
  deriving DecidableEq

/-- The role reported in a denial: `user.role if user else "unknown"`. -/
def roleOf (db : DB) (user_email : String) : String :=
  match get_user_by_email db user_email with
  | some u => u.role
  | none => "unknown"

/-- Turn a predicate's verdict into `require_permission`'s outcome. -/
def permVerdict (db : DB) (user_email action : String) (b : Bool) : PermResult :=
  if b then .ok else .permissionDenied (roleOf db user_email) action

/-- permissions.py `require_permission`: runtime lookup table from action
names to closures. The `"add_internal_comment"` closure invokes
`can_add_internal_comment(user_email)` without its required `ticket_id`
argument, so that call raises `TypeError` before any check runs. -/
def require_permission (db : DB) (user_email action : String) (ticket_id : Option Nat) :
    PermResult :=
  if action = "create_ticket" then permVerdict db user_email action (can_create_ticket db user_email)
  else if action = "view_ticket" then
    permVerdict db user_email action (can_view_ticket db user_email ticket_id)
  else if action = "view_all_tickets" then
    permVerdict db user_email action (can_view_all_tickets db user_email)
  else if action = "update_ticket" then
    permVerdict db user_email action (can_update_ticket db user_email ticket_id)
  else if action = "delete_ticket" then
    permVerdict db user_email action (can_delete_ticket db user_email)
  else if action = "assign_ticket" then
    permVerdict db user_email action (can_assign_ticket db user_email)
  else if action = "add_comment" then
    permVerdict db user_email action (can_add_comment db user_email ticket_id)
  else if action = "add_internal_comment" then
    .typeErr "can_add_internal_comment() missing 1 required positional argument: ticket_id"
  else if action = "view_internal_comments" then
    permVerdict db user_email action (can_view_internal_comments db user_email)
  else if action = "view_workload" then
    permVerdict db user_email action (can_view_workload db user_email)
  else if action = "manage_users" then
    permVerdict db user_email action (can_manage_users db user_email)
  else if action = "view_analytics" then
    permVerdict db user_email action (can_view_analytics db user_email)
  else .unknownAction action

/-- permissions.py `get_user_tickets_filter`: the role scope as a filter
dict for `get_all_tickets`. -/
def get_user_tickets_filter (db : DB) (user_email : String) : Filters :=
  match get_user_by_email db user_email with
  | none => [("created_by", "___NONEXISTENT___")]
  | some u =>
    if ¬ u.is_active then [("created_by", "___NONEXISTENT___")]
    else if u.role = ROLE_ADMIN then []
    else if u.role = ROLE_HELPER then [("assigned_to", user_email)]
    else if u.role = ROLE_CUSTOMER then [("created_by", user_email)]
    else []

/-- Python `dict.update`: existing keys get the new value in place, new
keys are appended in their own order. -/
def dictUpdate (base add : Filters) : Filters :=
  ((base : List (String × String)).map
    (fun kv => match (add : List (String × String)).find? (fun kv2 => kv2.1 = kv.1) with
      | some kv2 => (kv.1, kv2.2)
      | none => kv)) ++
  (add : List (String × String)).filter
    (fun kv2 => ¬ (base : List (String × String)).any (fun kv => kv.1 = kv2.1))

/-- permissions.py `get_accessible_tickets`: the scope filter updated with
the caller-supplied extra filters, passed to `get_all_tickets`. -/
def get_accessible_tickets (db : DB) (user_email : String) (additional : Filters) :
    List Ticket :=
  get_all_tickets db (dictUpdate (get_user_tickets_filter db user_email) additional)

/-- Active helper rows in users-table order (allocation.py's
`SELECT ... WHERE role = 'helper' AND is_active = 1`). -/
def activeHelpers (db : DB) : List User :=
  db.users.filter (fun u => u.role = ROLE_HELPER ∧ u.is_active)

/-- allocation.py `get_staff_workload` for one helper: tickets assigned to
the email whose status is not Closed/Resolved. -/
def currentLoad (db : DB) (email : String) : Nat :=
  (db.tickets.filter
    (fun t => t.assigned_to = some email ∧ t.status ≠ "Closed" ∧ t.status ≠ "Resolved")).length

/-- The per-helper capacity constant (`max_tickets = 20`). -/
def MAX_TICKETS : Nat := 20

/-- One entry of allocation.py's staff list dicts. -/
structure StaffInfo where
  email : String
  name : String
  current_tickets : Nat
  available_capacity : Int
  deriving DecidableEq

/-- Descending order on remaining capacity (`reverse=True` stable sort). -/
def capGE (a b : StaffInfo) : Prop := b.available_capacity ≤ a.available_capacity

instance : DecidableRel capGE :=
  fun a b => inferInstanceAs (Decidable (b.available_capacity ≤ a.available_capacity))

instance : IsTotal StaffInfo capGE :=
  ⟨fun a b => (Int.le_total a.available_capacity b.available_capacity).symm⟩

instance : IsTrans StaffInfo capGE := ⟨fun _ _ _ h1 h2 => Int.le_trans h2 h1⟩

/-- Ascending order on current load (the balance loop's re-sort key). -/
def loadLE (a b : StaffInfo) : Prop := a.current_tickets ≤ b.current_tickets

instance : DecidableRel loadLE :=
  fun a b => inferInstanceAs (Decidable (a.current_tickets ≤ b.current_tickets))

instance : IsTotal StaffInfo loadLE := ⟨fun a b => Nat.le_total a.current_tickets b.current_tickets⟩

instance : IsTrans StaffInfo loadLE := ⟨fun _ _ _ => Nat.le_trans⟩

/-- allocation.py `get_available_staff`: every active helper with its load
and remaining capacity, sorted by remaining capacity descending (stable). -/
def get_available_staff (db : DB) : List StaffInfo :=
  List.insertionSort capGE
    ((activeHelpers db).map (fun u =>
      { email := u.email, name := u.name,
        current_tickets := currentLoad db u.email,
        available_capacity := (MAX_TICKETS : Int) - (currentLoad db u.email : Int) }))

/-- allocation.py `reassign_ticket`: `false` when the ticket is missing or
the update raises; otherwise performs the lifecycle update. -/
def reassign_ticket (db : DB) (ticket_id : Nat) (new_assignee changed_by : String)
    (now : Nat) : DB × Bool :=
  match get_ticket db ticket_id with
  | none => (db, false)
  | some _ =>
    match update_ticket db ticket_id none (some new_assignee) (some changed_by) now with
    | .ok (db', _) => (db', true)
    | .error _ => (db, false)

/-- allocation.py `auto_assign_ticket`: head of the staff list if it has
remaining capacity, else no assignment. -/
def auto_assign_ticket (db : DB) (ticket_id : Nat) (changed_by : String) (now : Nat) :
    DB × Option String :=
  match get_available_staff db with
  | [] => (db, none)
  | best :: _ =>
    if best.available_capacity ≤ 0 then (db, none)
    else
      let r := reassign_ticket db ticket_id best.email changed_by now
      if r.2 then (r.1, some best.email) else (r.1, none)

/-- Python `int()` truncation toward zero of a rational. -/
def pyTrunc (q : ℚ) : Int :=
  if 0 ≤ q.num then ((q.num.toNat / q.den : Nat) : Int)
  else -((((-q.num).toNat / q.den : Nat) : Int))

/-- Mean of `current_tickets` over a staff list, as a rational. -/
def averageLoad (staff : List StaffInfo) : ℚ :=
  ((staff.map (fun s => (s.current_tickets : ℚ))).sum) / (staff.length : ℚ)

/-- Result dict of `balance_workload` (`average_load` is absent in the
fewer-than-two-helpers early return). -/
structure BalanceResult where
  reassigned : Nat
  average_load : Option ℚ
  deriving DecidableEq

/-- The inner ticket loop of `balance_workload`: for each fetched ticket,
stop if the underloaded pool is empty, otherwise reassign to its head and,
on success, bump that head's in-memory count and re-sort the whole pool. -/
def balanceInner (changed_by : String) (now : Nat) :
    List Ticket → List StaffInfo → DB → Nat → List StaffInfo × DB × Nat
  | [], under, db, n => (under, db, n)
  | _ :: _, [], db, n => ([], db, n)
  | t :: ts, target :: rest, db, n =>
    match reassign_ticket db t.id target.email changed_by now with
    | (db2, true) =>
      balanceInner changed_by now ts
        (List.insertionSort loadLE
          ({ target with current_tickets := target.current_tickets + 1 } :: rest))
        db2 (n + 1)
    | (db2, false) => balanceInner changed_by now ts (target :: rest) db2 n

/-- The outer loop of `balance_workload`: per overloaded helper, fetch its
Open tickets from the store, truncate the load excess over the average, and
run the inner loop on that prefix. -/
def balanceOuter (changed_by : String) (now : Nat) (avg : ℚ) :
    List StaffInfo → List StaffInfo → DB → Nat → DB × Nat
  | [], _, db, n => (db, n)
  | h :: hs, under, db, n =>
    let tickets := get_all_tickets db [("assigned_to", h.email), ("status", "Open")]
    let excess := pyTrunc ((h.current_tickets : ℚ) - avg)
    let r := balanceInner changed_by now (tickets.take excess.toNat) under db n
    balanceOuter changed_by now avg hs r.1 r.2.1 r.2.2

/-- allocation.py `balance_workload`: no-op below two helpers; otherwise
partition staff around the mean load and run the greedy reassignment. -/
def balance_workload (db : DB) (changed_by : String) (now : Nat) : DB × BalanceResult :=
  let staff := get_available_staff db
  if staff.length < 2 then (db, { reassigned := 0, average_load := none })
  else
    let avg := averageLoad staff
    let overloaded := staff.filter (fun s => avg + 2 < (s.current_tickets : ℚ))
    let underloaded :=
      List.insertionSort loadLE (staff.filter (fun s => (s.current_tickets : ℚ) < avg))
    let r := balanceOuter changed_by now avg overloaded underloaded db 0
    (r.1, { reassigned := r.2, average_load := some avg })

/-- Greedy move step following the words of spec §4.3: pop the least-loaded
underloaded helper, reassign the ticket to them via updateTicket, increment
their tracked load in memory, and reinsert them keeping the pool ascending;
stop early when the pool empties. -/
def specMoveTickets (changed_by : String) (now : Nat) :
    List Ticket → List StaffInfo → DB → Nat → List StaffInfo × DB × Nat
  | [], pool, db, n => (pool, db, n)
  | _ :: _, [], db, n => ([], db, n)
  | t :: ts, target :: pool, db, n =>
    let db' := (reassign_ticket db t.id target.email changed_by now).1
    specMoveTickets changed_by now ts
      (List.orderedInsert loadLE
        { target with current_tickets := target.current_tickets + 1 } pool)
      db' (n + 1)

/-- Outer loop following the words of spec §4.3: for each overloaded helper
take up to `floor(currentLoad - average)` of its Open tickets and stream
them through the greedy move step. -/
def specBalanceOuter (changed_by : String) (now : Nat) (avg : ℚ) :
    List StaffInfo → List StaffInfo → DB → Nat → DB × Nat
  | [], _, db, n => (db, n)
  | h :: hs, under, db, n =>
    let tickets := get_all_tickets db [("assigned_to", h.email), ("status", "Open")]
    let excess := (⌊(h.current_tickets : ℚ) - avg⌋).toNat
    let r := specMoveTickets changed_by now (tickets.take excess) under db n
    specBalanceOuter changed_by now avg hs r.1 r.2.1 r.2.2

/-- The whole rebalancer following the words of spec §4.3: no-op below two
helpers; else split staff into overloaded (load > average + 2) and
underloaded (load < average, ascending) and run the greedy streaming moves,
reporting the move count and the average used. -/
def balanceWorkloadSpec (db : DB) (changed_by : String) (now : Nat) : DB × BalanceResult :=
  let staff := get_available_staff db
  if staff.length < 2 then (db, { reassigned := 0, average_load := none })
  else
    let avg := averageLoad staff
    let overloaded := staff.filter (fun s => avg + 2 < (s.current_tickets : ℚ))
    let underloaded :=
      List.insertionSort loadLE (staff.filter (fun s => (s.current_tickets : ℚ) < avg))
    let r := specBalanceOuter changed_by now avg overloaded underloaded db 0
    (r.1, { reassigned := r.2, average_load := some avg })

/-! Supporting lemmas about the lifecycle update. -/

theorem ticketAfterUpdate_id (t : Ticket) (st as : Option String) (now : Nat) :
    (ticketAfterUpdate t st as now).id = t.id := by
  unfold ticketAfterUpdate
  rcases statusChangeOf st t with _ | ⟨o, s⟩ <;> rcases assignChangeOf as t with _ | ⟨o2, a⟩ <;>
    dsimp <;> split_ifs <;> rfl

theorem ticketAfterUpdate_resolved_at (t : Ticket) (st as : Option String) (now : Nat) :
    (ticketAfterUpdate t st as now).resolved_at =
      if st = some "Resolved" ∧ t.status ≠ "Resolved" then some now else t.resolved_at := by
  unfold ticketAfterUpdate
  rcases statusChangeOf st t with _ | ⟨o, s⟩ <;> rcases assignChangeOf as t with _ | ⟨o2, a⟩ <;>
    dsimp <;> split_ifs <;> rfl

theorem ticketAfterUpdate_closed_at (t : Ticket) (st as : Option String) (now : Nat) :
    (ticketAfterUpdate t st as now).closed_at =
      if st = some "Closed" ∧ t.status ≠ "Closed" then some now else t.closed_at := by
  unfold ticketAfterUpdate
  rcases statusChangeOf st t with _ | ⟨o, s⟩ <;> rcases assignChangeOf as t with _ | ⟨o2, a⟩ <;>
    dsimp <;> split_ifs <;> rfl

theorem ticketAfterUpdate_status (t : Ticket) (st as : Option String) (now : Nat) :
    (ticketAfterUpdate t st as now).status =
      (match statusChangeOf st t with
       | some (_, s) => s
       | none => t.status) := by
  unfold ticketAfterUpdate
  rcases statusChangeOf st t with _ | ⟨o, s⟩ <;> rcases assignChangeOf as t with _ | ⟨o2, a⟩ <;>
    dsimp <;> split_ifs <;> rfl

theorem ticketAfterUpdate_assigned_to (t : Ticket) (st as : Option String) (now : Nat) :
    (ticketAfterUpdate t st as now).assigned_to =
      (match assignChangeOf as t with
       | some (_, a) => some a
       | none => t.assigned_to) := by
  unfold ticketAfterUpdate
  rcases statusChangeOf st t with _ | ⟨o, s⟩ <;> rcases assignChangeOf as t with _ | ⟨o2, a⟩ <;>
    dsimp <;> split_ifs <;> rfl

theorem ticketAfterUpdate_updated_at (t : Ticket) (st as : Option String) (now : Nat) :
    (ticketAfterUpdate t st as now).updated_at =
      if (statusChangeOf st t).isSome ∨ (assignChangeOf as t).isSome then now
      else t.updated_at := by
  unfold ticketAfterUpdate
  rcases statusChangeOf st t with _ | ⟨o, s⟩ <;> rcases assignChangeOf as t with _ | ⟨o2, a⟩ <;>
    dsimp <;> split_ifs <;> rfl

theorem replaceTicket_cons (u : Ticket) (us : List Ticket) (i : Nat) (t' : Ticket) :
    replaceTicket (u :: us) i t' = (if u.id = i then t' else u) :: replaceTicket us i t' := rfl

theorem find?_replaceTicket_self (ts : List Ticket) (i : Nat) (t t' : Ticket)
    (hf : ts.find? (fun u => u.id = i) = some t) (hid : t'.id = i) :
    (replaceTicket ts i t').find? (fun u => u.id = i) = some t' := by
  induction ts with
  | nil => simp at hf
  | cons u us ih =>
    rw [replaceTicket_cons]
    by_cases hu : u.id = i
    · rw [if_pos hu]
      exact List.find?_cons_of_pos _ (by simpa using hid)
    · rw [if_neg hu, List.find?_cons_of_neg _ (by simpa using hu)]
      rw [List.find?_cons_of_neg _ (by simpa using hu)] at hf
      exact ih hf

theorem find?_replaceTicket_other (ts : List Ticket) (i j : Nat) (t' : Ticket)
    (hid : t'.id = i) (hne : j ≠ i) :
    (replaceTicket ts i t').find? (fun u => u.id = j) = ts.find? (fun u => u.id = j) := by
  induction ts with
  | nil => rfl
  | cons u us ih =>
    rw [replaceTicket_cons]
    by_cases hu : u.id = i
    · have h1 : ¬ t'.id = j := by rw [hid]; exact fun h => hne h.symm
      have h2 : ¬ u.id = j := by rw [hu]; exact fun h => hne h.symm
      rw [if_pos hu, List.find?_cons_of_neg _ (by simpa using h1),
        List.find?_cons_of_neg _ (by simpa using h2)]
      exact ih
    · by_cases huj : u.id = j
      · rw [if_neg hu, List.find?_cons_of_pos _ (by simpa using huj),
          List.find?_cons_of_pos _ (by simpa using huj)]
      · rw [if_neg hu, List.find?_cons_of_neg _ (by simpa using huj),
          List.find?_cons_of_neg _ (by simpa using huj)]
        exact ih

theorem find?_replaceTicket_isSome (ts : List Ticket) (i j : Nat) (t' : Ticket)
    (hid : t'.id = i) :
    ((replaceTicket ts i t').find? (fun u => u.id = j)).isSome =
      (ts.find? (fun u => u.id = j)).isSome := by
  by_cases hji : j = i
  · subst hji
    induction ts with
    | nil => rfl
    | cons u us ih =>
      rw [replaceTicket_cons]
      by_cases hu : u.id = j
      · rw [if_pos hu, List.find?_cons_of_pos _ (by simpa using hid),
          List.find?_cons_of_pos _ (by simpa using hu)]
        rfl
      · rw [if_neg hu, List.find?_cons_of_neg _ (by simpa using hu),
          List.find?_cons_of_neg _ (by simpa using hu)]
        exact ih
  · rw [find?_replaceTicket_other ts i j t' hid hji]

/-- The store after a successful `update_ticket` on ticket `t`. -/
def updDB (db : DB) (i : Nat) (t : Ticket) (st as cb : Option String) (now : Nat) : DB :=
  { db with tickets := replaceTicket db.tickets i (ticketAfterUpdate t st as now),
            history := db.history ++ historyForUpdate i t st as cb now }

theorem get_ticket_some_id {db : DB} {i : Nat} {t : Ticket} (h : get_ticket db i = some t) :
    t.id = i := by
  have := List.find?_some h
  simpa using this

theorem update_ticket_char (db : DB) (i : Nat) (st as cb : Option String) (now : Nat)
    (t : Ticket) (hv : ¬ (pyTruthy st ∧ ¬ VALID_STATUSES.contains (st.getD "")))
    (ht : get_ticket db i = some t) :
    update_ticket db i st as cb now =
      .ok (updDB db i t st as cb now, ticketAfterUpdate t st as now) := by
  have hid : (ticketAfterUpdate t st as now).id = i :=
    (ticketAfterUpdate_id t st as now).trans (get_ticket_some_id ht)
  have hfind : get_ticket (updDB db i t st as cb now) i =
      some (ticketAfterUpdate t st as now) :=
    find?_replaceTicket_self db.tickets i t _ ht hid
  unfold update_ticket
  rw [if_neg hv, ht]
  dsimp only
  rw [show ({ db with
        tickets := replaceTicket db.tickets i (ticketAfterUpdate t st as now),
        history := db.history ++ historyForUpdate i t st as cb now } : DB) =
      updDB db i t st as cb now from rfl]
  rw [hfind]

theorem update_ticket_ok_inv {db : DB} {i : Nat} {st as cb : Option String} {now : Nat}
    {db' : DB} {tr : Ticket} (h : update_ticket db i st as cb now = .ok (db', tr)) :
    ∃ t, get_ticket db i = some t ∧ db' = updDB db i t st as cb now ∧
      tr = ticketAfterUpdate t st as now := by
  by_cases hv : (pyTruthy st ∧ ¬ VALID_STATUSES.contains (st.getD ""))
  · unfold update_ticket at h
    rw [if_pos hv] at h
    cases h
  · cases hft : get_ticket db i with
    | none =>
      unfold update_ticket at h
      rw [if_neg hv, hft] at h
      cases h
    | some t =>
      have hchar := update_ticket_char db i st as cb now t hv hft
      rw [hchar] at h
      injection h with h1
      injection h1 with h2 h3
      exact ⟨t, rfl, h2.symm, h3.symm⟩

/-- One `update_ticket` call's arguments. -/
structure UpdateCmd where
  tid : Nat
  status : Option String
  assigned_to : Option String
  changed_by : Option String
  now : Nat
  deriving DecidableEq

/-- Apply one `update_ticket` call; a raised error leaves the store as it
was (the transaction rolls back). -/
def applyUpdate1 (db : DB) (c : UpdateCmd) : DB :=
  match update_ticket db c.tid c.status c.assigned_to c.changed_by c.now with
  | .ok (db', _) => db'
  | .error _ => db

/-- Apply a sequence of `update_ticket` calls in order. -/
def applyUpdates (db : DB) : List UpdateCmd → DB
  | [] => db
  | c :: cs => applyUpdates (applyUpdate1 db c) cs

theorem applyUpdate1_mono (db : DB) (c : UpdateCmd) (i : Nat) (t : Ticket)
    (ht : get_ticket db i = some t) :
    ∃ t', get_ticket (applyUpdate1 db c) i = some t' ∧
      (t.resolved_at.isSome → t'.resolved_at.isSome) ∧
      (t.closed_at.isSome → t'.closed_at.isSome) := by
  unfold applyUpdate1
  cases hres : update_ticket db c.tid c.status c.assigned_to c.changed_by c.now with
  | error e => exact ⟨t, ht, id, id⟩
  | ok p =>
    obtain ⟨db', tr⟩ := p
    obtain ⟨t0, ht0, hdb, _⟩ := update_ticket_ok_inv hres
    subst hdb
    by_cases hi : i = c.tid
    · subst hi
      have hteq : t0 = t := by
        rw [ht0] at ht
        injection ht with h
      subst hteq
      have hid : (ticketAfterUpdate t0 c.status c.assigned_to c.now).id = c.tid :=
        (ticketAfterUpdate_id _ _ _ _).trans (get_ticket_some_id ht0)
      refine ⟨ticketAfterUpdate t0 c.status c.assigned_to c.now,
        find?_replaceTicket_self db.tickets c.tid t0 _ ht0 hid, ?_, ?_⟩
      · rw [ticketAfterUpdate_resolved_at]
        split_ifs <;> simp
      · rw [ticketAfterUpdate_closed_at]
        split_ifs <;> simp
    · have hid : (ticketAfterUpdate t0 c.status c.assigned_to c.now).id = c.tid :=
        (ticketAfterUpdate_id _ _ _ _).trans (get_ticket_some_id ht0)
      refine ⟨t, ?_, id, id⟩
      show (replaceTicket db.tickets c.tid _).find? (fun u => u.id = i) = some t
      rw [find?_replaceTicket_other db.tickets c.tid i _ hid hi]
      exact ht

theorem applyUpdates_mono (cmds : List UpdateCmd) (db : DB) (i : Nat) (t : Ticket)
    (ht : get_ticket db i = some t) :
    ∃ t', get_ticket (applyUpdates db cmds) i = some t' ∧
      (t.resolved_at.isSome → t'.resolved_at.isSome) ∧
      (t.closed_at.isSome → t'.closed_at.isSome) := by
  induction cmds generalizing db t with
  | nil => exact ⟨t, ht, id, id⟩
  | cons c cs ih =>
    obtain ⟨t1, h1, m1, m2⟩ := applyUpdate1_mono db c i t ht
    obtain ⟨t2, h2, m3, m4⟩ := ih (applyUpdate1 db c) t1 h1
    exact ⟨t2, h2, fun h => m3 (m1 h), fun h => m4 (m2 h)⟩

theorem mem_VALID_STATUSES_ne_empty {s : String} (h : s ∈ VALID_STATUSES) : s ≠ "" := by
  simp [VALID_STATUSES] at h
  rcases h with rfl | rfl | rfl | rfl | rfl <;> decide

theorem statusArg_valid {s : String} (h : s ∈ VALID_STATUSES) :
    ¬ (pyTruthy (some s) ∧ ¬ VALID_STATUSES.contains ((some s).getD "")) := by
  rintro ⟨-, hc⟩
  exact hc (by simpa using h)

theorem statusArg_falsy {st : Option String} (h : st = none ∨ st = some "") :
    ¬ (pyTruthy st ∧ ¬ VALID_STATUSES.contains (st.getD "")) := by
  rcases h with rfl | rfl <;> rintro ⟨hp, -⟩ <;> simp [pyTruthy] at hp

theorem statusChangeOf_changed {s : String} {t : Ticket} (h1 : s ≠ "") (h2 : s ≠ t.status) :
    statusChangeOf (some s) t = some (t.status, s) := by
  simp [statusChangeOf, h1, h2]

theorem statusChangeOf_same (t : Ticket) : statusChangeOf (some t.status) t = none := by
  simp [statusChangeOf]

theorem ticketAfterUpdate_same_status (t : Ticket) (now : Nat) :
    ticketAfterUpdate t (some t.status) none now = t := by
  have hR : ¬ (some t.status = some "Resolved" ∧ t.status ≠ "Resolved") := by
    rintro ⟨h, hn⟩
    injection h with h
    exact hn h
  have hC : ¬ (some t.status = some "Closed" ∧ t.status ≠ "Closed") := by
    rintro ⟨h, hn⟩
    injection h with h
    exact hn h
  unfold ticketAfterUpdate
  rw [statusChangeOf_same]
  dsimp [assignChangeOf]
  rw [if_neg hR, if_neg hC]

theorem ticketAfterUpdate_falsy (t : Ticket) (st : Option String) (now : Nat)
    (h : st = none ∨ st = some "") : ticketAfterUpdate t st none now = t := by
  rcases h with rfl | rfl <;>
    simp [ticketAfterUpdate, statusChangeOf, assignChangeOf]

theorem assignChangeOf_changed {a : String} {t : Ticket} (h : t.assigned_to ≠ some a) :
    assignChangeOf (some a) t = some (t.assigned_to, a) := by
  simp [assignChangeOf, h]

theorem assignChangeOf_same {a : String} {t : Ticket} (h : t.assigned_to = some a) :
    assignChangeOf (some a) t = none := by
  simp [assignChangeOf, h]

theorem ticketAfterUpdate_same_assignee (t : Ticket) (a : String)
    (h : t.assigned_to = some a) (now : Nat) :
    ticketAfterUpdate t none (some a) now = t := by
  simp [ticketAfterUpdate, statusChangeOf, assignChangeOf, h]

theorem statusChangeOf_falsy {st : Option String} (t : Ticket)
    (h : st = none ∨ st = some "") : statusChangeOf st t = none := by
  rcases h with rfl | rfl <;> simp [statusChangeOf]

/-! Concrete stores used by witnesses and counterexamples. -/

def C1db : DB := ⟨[], [⟨1, "t", "", "Low", "Open", none, none, 0, 0, none, none⟩], [], 2⟩

def C1wt0 : Ticket := ⟨1, "t", "", "Low", "Resolved", none, none, 0, 0, some 5, none⟩

def C1wdb : DB := ⟨[], [C1wt0], [], 2⟩

def C1wt : Ticket := ⟨1, "t", "", "Low", "Open", none, none, 0, 9, some 5, none⟩

/-- Claim C1 is false on the code: `resolved_at` is guarded by the pre-call
status, not by being unset, so leaving Resolved and re-entering it
overwrites the timestamp of the first arrival (10 becomes 30). -/
theorem C1_counterexample :
    (get_ticket (applyUpdates C1db [⟨1, some "Resolved", none, none, 10⟩]) 1).map
        Ticket.resolved_at = some (some 10) ∧
    (get_ticket (applyUpdates C1db [⟨1, some "Resolved", none, none, 10⟩,
        ⟨1, some "Open", none, none, 20⟩, ⟨1, some "Resolved", none, none, 30⟩]) 1).map
        Ticket.resolved_at = some (some 30) ∧
    some (some 30) ≠ (some (some 10) : Option (Option Nat)) := by
  refine ⟨by decide, by decide, by decide⟩

/-- Claim C1 (amended): over any call sequence `resolved_at` and
`closed_at`, once set, are never cleared back to none, and a call made while
the ticket is already Resolved (resp. Closed) leaves `resolved_at` (resp.
`closed_at`) unchanged; only a call that re-enters the status from a
different one overwrites the timestamp. -/
theorem C1_resolved_at_amended (db : DB) (cmds : List UpdateCmd) (tid : Nat) (t t' : Ticket)
    (ht : get_ticket db tid = some t)
    (ht' : get_ticket (applyUpdates db cmds) tid = some t') :
    (t.resolved_at.isSome → t'.resolved_at.isSome) ∧
    (t.closed_at.isSome → t'.closed_at.isSome) ∧
    (∀ st as cb now db2 t2, t.status = "Resolved" →
        update_ticket db tid st as cb now = Except.ok (db2, t2) →
        t2.resolved_at = t.resolved_at) ∧
    (∀ st as cb now db2 t2, t.status = "Closed" →
        update_ticket db tid st as cb now = Except.ok (db2, t2) →
        t2.closed_at = t.closed_at) := by
  obtain ⟨t'', h'', m1, m2⟩ := applyUpdates_mono cmds db tid t ht
  have hteq : t'' = t' := by
    rw [h''] at ht'
    injection ht'
  subst hteq
  refine ⟨m1, m2, ?_, ?_⟩
  · intro st as cb now db2 t2 hstat hup
    obtain ⟨t0, ht0, _, htr⟩ := update_ticket_ok_inv hup
    have ht0t : t0 = t := by
      rw [ht0] at ht
      injection ht
    subst ht0t
    rw [htr, ticketAfterUpdate_resolved_at, if_neg]
    rintro ⟨-, h2⟩
    exact h2 hstat
  · intro st as cb now db2 t2 hstat hup
    obtain ⟨t0, ht0, _, htr⟩ := update_ticket_ok_inv hup
    have ht0t : t0 = t := by
      rw [ht0] at ht
      injection ht
    subst ht0t
    rw [htr, ticketAfterUpdate_closed_at, if_neg]
    rintro ⟨-, h2⟩
    exact h2 hstat

theorem C1_witness :
    get_ticket (applyUpdates C1wdb [⟨1, some "Open", none, none, 9⟩]) 1 = some C1wt ∧
    C1wt.resolved_at.isSome := by
  refine ⟨by decide, ?_⟩
  exact (C1_resolved_at_amended C1wdb [⟨1, some "Open", none, none, 9⟩] 1 C1wt0 C1wt
    (by decide) (by decide)).1 (by decide)

/-- Claim C4: `update_ticket` fails NotFound on a missing ticket; a supplied
status is written with `updated_at = now` and exactly one history entry
only when it differs from the stored one; repeating the same Resolved
status appends one entry and fixes `resolved_at` on the first call only. -/
theorem C4_update_ticket_contract (db : DB) (tid : Nat) (t : Ticket) (s : String)
    (cb : Option String) (now now2 : Nat)
    (hs : s ∈ VALID_STATUSES) (hs0 : t.status ∈ VALID_STATUSES)
    (ht : get_ticket db tid = some t) :
    (∀ (db0 : DB) (tid0 : Nat), get_ticket db0 tid0 = none →
        update_ticket db0 tid0 (some s) none cb now =
          Except.error (DBErr.notFound "Ticket not found")) ∧
    (s ≠ t.status →
      ∃ db' t', update_ticket db tid (some s) none cb now = Except.ok (db', t') ∧
        t'.status = s ∧ t'.updated_at = now ∧
        db'.history = db.history ++
          [⟨tid, "status", some t.status, some s, cb.getD "System", now⟩]) ∧
    (s = t.status →
      ∃ db', update_ticket db tid (some s) none cb now = Except.ok (db', t) ∧
        db'.history = db.history) ∧
    (∀ a, t.assigned_to ≠ some a →
      ∃ db' t', update_ticket db tid none (some a) cb now = Except.ok (db', t') ∧
        t'.assigned_to = some a ∧ t'.updated_at = now ∧
        db'.history = db.history ++
          [⟨tid, "assigned_to", pyStrOrNone t.assigned_to,
            if a = "" then none else some a, cb.getD "System", now⟩]) ∧
    (∀ a, t.assigned_to = some a →
      ∃ db', update_ticket db tid none (some a) cb now = Except.ok (db', t) ∧
        db'.history = db.history) ∧
    (t.status ≠ "Resolved" →
      ∃ db1 t1 db2 t2,
        update_ticket db tid (some "Resolved") none cb now = Except.ok (db1, t1) ∧
        db1.history = db.history ++
          [⟨tid, "status", some t.status, some "Resolved", cb.getD "System", now⟩] ∧
        t1.resolved_at = some now ∧
        update_ticket db1 tid (some "Resolved") none cb now2 = Except.ok (db2, t2) ∧
        db2.history = db1.history ∧
        t2.resolved_at = some now) := by
  have hv := statusArg_valid hs
  have hse := mem_VALID_STATUSES_ne_empty hs
  have hs0e := mem_VALID_STATUSES_ne_empty hs0
  have hvnone : ¬ (pyTruthy none ∧
      ¬ VALID_STATUSES.contains ((none : Option String).getD "")) := by
    rintro ⟨hp, -⟩
    simp [pyTruthy] at hp
  refine ⟨?_, ?_, ?_, ?_, ?_, ?_⟩
  · intro db0 tid0 h0
    unfold update_ticket
    rw [if_neg hv, h0]
  · intro hne
    refine ⟨updDB db tid t (some s) none cb now, ticketAfterUpdate t (some s) none now,
      update_ticket_char db tid (some s) none cb now t hv ht, ?_, ?_, ?_⟩
    · rw [ticketAfterUpdate_status, statusChangeOf_changed hse hne]
    · rw [ticketAfterUpdate_updated_at,
        if_pos (Or.inl (show (statusChangeOf (some s) t).isSome = true by
          rw [statusChangeOf_changed hse hne]
          rfl))]
    · show db.history ++ historyForUpdate tid t (some s) none cb now = _
      unfold historyForUpdate
      rw [statusChangeOf_changed hse hne]
      simp [assignChangeOf, hs0e, hse]
  · intro heq
    rw [heq]
    refine ⟨updDB db tid t (some t.status) none cb now, ?_, ?_⟩
    · have hchar := update_ticket_char db tid (some t.status) none cb now t
        (statusArg_valid (heq ▸ hs)) ht
      rwa [ticketAfterUpdate_same_status] at hchar
    · show db.history ++ historyForUpdate tid t (some t.status) none cb now = _
      unfold historyForUpdate
      rw [statusChangeOf_same]
      simp [assignChangeOf]
  · intro a hne
    refine ⟨updDB db tid t none (some a) cb now, ticketAfterUpdate t none (some a) now,
      update_ticket_char db tid none (some a) cb now t hvnone ht, ?_, ?_, ?_⟩
    · rw [ticketAfterUpdate_assigned_to, assignChangeOf_changed hne]
    · rw [ticketAfterUpdate_updated_at,
        if_pos (Or.inr (show (assignChangeOf (some a) t).isSome = true by
          rw [assignChangeOf_changed hne]
          rfl))]
    · show db.history ++ historyForUpdate tid t none (some a) cb now = _
      unfold historyForUpdate
      rw [assignChangeOf_changed hne]
      dsimp [statusChangeOf]
  · intro a heq
    have hchar := update_ticket_char db tid none (some a) cb now t hvnone ht
    rw [ticketAfterUpdate_same_assignee t a heq] at hchar
    refine ⟨updDB db tid t none (some a) cb now, hchar, ?_⟩
    show db.history ++ historyForUpdate tid t none (some a) cb now = _
    unfold historyForUpdate
    rw [assignChangeOf_same heq]
    dsimp [statusChangeOf]
    simp
  · intro hne
    have hvR : ¬ (pyTruthy (some "Resolved") ∧
        ¬ VALID_STATUSES.contains ((some "Resolved").getD "")) :=
      statusArg_valid (by decide)
    have hRne : "Resolved" ≠ ("" : String) := by decide
    have hchar1 := update_ticket_char db tid (some "Resolved") none cb now t hvR ht
    have ht1id : (ticketAfterUpdate t (some "Resolved") none now).id = tid :=
      (ticketAfterUpdate_id _ _ _ _).trans (get_ticket_some_id ht)
    have hfind1 : get_ticket (updDB db tid t (some "Resolved") none cb now) tid =
        some (ticketAfterUpdate t (some "Resolved") none now) :=
      find?_replaceTicket_self db.tickets tid t _ ht ht1id
    have ht1status : (ticketAfterUpdate t (some "Resolved") none now).status = "Resolved" := by
      rw [ticketAfterUpdate_status, statusChangeOf_changed hRne (fun h => hne h.symm)]
    have hchar2 := update_ticket_char (updDB db tid t (some "Resolved") none cb now) tid
      (some "Resolved") none cb now2 _ hvR hfind1
    set t1 := ticketAfterUpdate t (some "Resolved") none now with ht1def
    have hsc1 : statusChangeOf (some "Resolved") t1 = none := by
      rw [← ht1status]
      exact statusChangeOf_same t1
    have hsame : ticketAfterUpdate t1 (some "Resolved") none now2 = t1 := by
      rw [← ht1status]
      exact ticketAfterUpdate_same_status t1 now2
    refine ⟨updDB db tid t (some "Resolved") none cb now, t1, _, _, hchar1, ?_, ?_, hchar2, ?_, ?_⟩
    · show db.history ++ historyForUpdate tid t (some "Resolved") none cb now = _
      unfold historyForUpdate
      rw [statusChangeOf_changed hRne (fun h => hne h.symm)]
      simp [assignChangeOf, hs0e]
    · rw [ht1def, ticketAfterUpdate_resolved_at, if_pos ⟨rfl, hne⟩]
    · show _ ++ historyForUpdate tid t1 (some "Resolved") none cb now2 = _
      unfold historyForUpdate
      rw [hsc1]
      simp [assignChangeOf]
    · rw [hsame, ht1def, ticketAfterUpdate_resolved_at, if_pos ⟨rfl, hne⟩]

def C4t : Ticket := ⟨1, "Printer", "", "Low", "Open", some "h1@x.com", some "c1@x.com", 1, 1, none, none⟩

def C4db : DB := ⟨[], [C4t], [], 2⟩

theorem C4_witness :
    ∃ db1 t1 db2 t2,
      update_ticket C4db 1 (some "Resolved") none (some "h1@x.com") 10 = Except.ok (db1, t1) ∧
      db1.history = C4db.history ++
        [⟨1, "status", some C4t.status, some "Resolved", "h1@x.com", 10⟩] ∧
      t1.resolved_at = some 10 ∧
      update_ticket db1 1 (some "Resolved") none (some "h1@x.com") 20 = Except.ok (db2, t2) ∧
      db2.history = db1.history ∧
      t2.resolved_at = some 10 :=
  (C4_update_ticket_contract C4db 1 C4t "Resolved" (some "h1@x.com") 10 20
    (by decide) (by decide) (by decide)).2.2.2.2.2 (by decide)

/-- Claim C10: an `assigned_to` argument of `None` means "not supplied", so
the stored assignee survives every call (no call un-assigns a ticket), and
a falsy status argument skips both validation and the status write. -/
theorem C10_none_keeps_assignment (db : DB) (tid : Nat) (st cb : Option String)
    (now : Nat) (t : Ticket) (ht : get_ticket db tid = some t) :
    (∀ db' t', update_ticket db tid st none cb now = Except.ok (db', t') →
        t'.assigned_to = t.assigned_to) ∧
    (∀ a db' t', update_ticket db tid st a cb now = Except.ok (db', t') →
        t.assigned_to.isSome → t'.assigned_to.isSome) ∧
    (st = none ∨ st = some "" →
      ∃ db', update_ticket db tid st none cb now = Except.ok (db', t) ∧
        db'.history = db.history) := by
  refine ⟨?_, ?_, ?_⟩
  · intro db' t' hup
    obtain ⟨t0, ht0, _, htr⟩ := update_ticket_ok_inv hup
    have ht0t : t0 = t := by
      rw [ht0] at ht
      injection ht
    subst ht0t
    rw [htr, ticketAfterUpdate_assigned_to]
    rfl
  · intro a db' t' hup hsome
    obtain ⟨t0, ht0, _, htr⟩ := update_ticket_ok_inv hup
    have ht0t : t0 = t := by
      rw [ht0] at ht
      injection ht
    subst ht0t
    rw [htr, ticketAfterUpdate_assigned_to]
    cases hac : assignChangeOf a t0 with
    | none => exact hsome
    | some p =>
      obtain ⟨o, x⟩ := p
      rfl
  · intro hfalsy
    have hv := statusArg_falsy hfalsy
    have hchar := update_ticket_char db tid st none cb now t hv ht
    rw [ticketAfterUpdate_falsy t st now hfalsy] at hchar
    refine ⟨updDB db tid t st none cb now, hchar, ?_⟩
    show db.history ++ historyForUpdate tid t st none cb now = _
    unfold historyForUpdate
    rw [statusChangeOf_falsy t hfalsy]
    dsimp [assignChangeOf]
    simp

def C10t : Ticket := ⟨1, "T", "", "Low", "Open", some "h1@x.com", none, 1, 1, none, none⟩

def C10db : DB := ⟨[], [C10t], [], 2⟩

theorem C10_witness :
    ∃ db', update_ticket C10db 1 none none none 7 = Except.ok (db', C10t) ∧
      db'.history = C10db.history :=
  (C10_none_keeps_assignment C10db 1 none none 7 C10t (by decide)).2.2 (Or.inl rfl)

def C2db : DB :=
  ⟨[⟨"admin@x.com", "Admin", "admin", true⟩],
   [⟨1, "t", "", "Low", "Open", none, none, 0, 0, none, none⟩], [], 2⟩

/-- Claim C2 fails on one cell of the table: the decision predicate for
add_internal_comment allows an active administrator, but the dispatcher's
lookup-table closure calls it without the required ticket argument, so
`require_permission` raises TypeError instead of the table's allow. -/
theorem C2_add_internal_comment_dispatch_bug :
    can_add_internal_comment C2db "admin@x.com" (some 1) = true ∧
    require_permission C2db "admin@x.com" "add_internal_comment" (some 1) =
      PermResult.typeErr
        "can_add_internal_comment() missing 1 required positional argument: ticket_id" := by
  exact ⟨by decide, by decide⟩

/-- Claim C9: for every store, actor and ticket argument, dispatching
add_internal_comment ends in TypeError — never a clean allow or
PermissionDenied, not even for administrators. -/
theorem C9_dispatcher_not_total (db : DB) (e : String) (tid : Option Nat) :
    require_permission db e "add_internal_comment" tid =
      PermResult.typeErr
        "can_add_internal_comment() missing 1 required positional argument: ticket_id" ∧
    require_permission db e "add_internal_comment" tid ≠ PermResult.ok ∧
    (∀ r a, require_permission db e "add_internal_comment" tid ≠
      PermResult.permissionDenied r a) := by
  exact ⟨rfl, fun h => PermResult.noConfusion h, fun r a h => PermResult.noConfusion h⟩

theorem find?_append_fresh (ts : List Ticket) (t : Ticket) (i : Nat)
    (hfresh : ∀ u ∈ ts, u.id ≠ i) (hid : t.id = i) :
    (ts ++ [t]).find? (fun u => u.id = i) = some t := by
  induction ts with
  | nil => simp [List.find?, hid]
  | cons u us ih =>
    rw [List.cons_append,
      List.find?_cons_of_neg _ (by simpa using hfresh u (List.mem_cons_self u us))]
    exact ih (fun v hv => hfresh v (List.mem_cons_of_mem u hv))

/-- The row `create_ticket` inserts. -/
def newTicketOf (db : DB) (title desc prio : String) (cb : Option String) (now : Nat) :
    Ticket :=
  ⟨db.next_id, pyStrip title, desc, prio, "Open", none, cb, now, now, none, none⟩

/-- The store after a successful `create_ticket`. -/
def createDB (db : DB) (title desc prio : String) (cb : Option String) (now : Nat) : DB :=
  { db with
    tickets := db.tickets ++ [newTicketOf db title desc prio cb now],
    history := db.history ++
      [⟨db.next_id, "created", none, some "Open", cb.getD "System", now⟩],
    next_id := db.next_id + 1 }

theorem get_ticket_createDB (db : DB) (title desc prio : String) (cb : Option String)
    (now : Nat) (hfresh : ∀ u ∈ db.tickets, u.id ≠ db.next_id) :
    get_ticket (createDB db title desc prio cb now) db.next_id =
      some (newTicketOf db title desc prio cb now) :=
  find?_append_fresh db.tickets _ db.next_id hfresh rfl

theorem create_ticket_ok (db : DB) (title desc prio : String) (cb : Option String)
    (now : Nat) (h1 : pyStrip title ≠ "") (h2 : VALID_PRIORITIES.contains prio)
    (hfresh : ∀ u ∈ db.tickets, u.id ≠ db.next_id) :
    create_ticket db title desc prio cb now =
      Except.ok (createDB db title desc prio cb now, newTicketOf db title desc prio cb now) := by
  unfold create_ticket
  rw [if_neg h1, if_neg (not_not_intro h2)]
  show (match get_ticket (createDB db title desc prio cb now) db.next_id with
        | some t' => Except.ok (createDB db title desc prio cb now, t')
        | none => Except.error (DBErr.notFound "Ticket not found")) = _
  rw [get_ticket_createDB db title desc prio cb now hfresh]

/-- Claim C7: `create_ticket` fails with ValidationError exactly when the
stripped title is empty or the priority is not whitelisted; on success the
new ticket is Open, unassigned, timestamped `now` twice, and exactly one
"created" history entry (old none, new "Open") is appended. -/
theorem C7_create_ticket_contract (db : DB) (title desc prio : String)
    (cb : Option String) (now : Nat)
    (hfresh : ∀ u ∈ db.tickets, u.id ≠ db.next_id) :
    ((pyStrip title = "" ∨ ¬ VALID_PRIORITIES.contains prio) ↔
      ∃ m, create_ticket db title desc prio cb now =
        Except.error (DBErr.validationError m)) ∧
    (∀ db' t, create_ticket db title desc prio cb now = Except.ok (db', t) →
      t.status = "Open" ∧ t.assigned_to = none ∧ t.created_at = now ∧
      t.updated_at = now ∧ t.title = pyStrip title ∧
      db'.history = db.history ++
        [⟨t.id, "created", none, some "Open", cb.getD "System", now⟩]) := by
  constructor
  · constructor
    · intro h
      by_cases h0 : pyStrip title = ""
      · exact ⟨"Title cannot be empty", by unfold create_ticket; rw [if_pos h0]⟩
      · have h2 : ¬ VALID_PRIORITIES.contains prio := h.resolve_left h0
        exact ⟨"Invalid priority", by unfold create_ticket; rw [if_neg h0, if_pos h2]⟩
    · rintro ⟨m, hm⟩
      by_contra hcon
      push_neg at hcon
      obtain ⟨h1, h2⟩ := hcon
      rw [create_ticket_ok db title desc prio cb now h1 h2 hfresh] at hm
      cases hm
  · intro db' t hok
    by_cases h1 : pyStrip title = ""
    · unfold create_ticket at hok
      rw [if_pos h1] at hok
      cases hok
    by_cases h2 : VALID_PRIORITIES.contains prio
    · rw [create_ticket_ok db title desc prio cb now h1 h2 hfresh] at hok
      injection hok with hok1
      injection hok1 with hdb ht
      subst hdb
      subst ht
      exact ⟨rfl, rfl, rfl, rfl, rfl, rfl⟩
    · unfold create_ticket at hok
      rw [if_neg h1, if_pos h2] at hok
      cases hok

def C8db : DB := ⟨[], [], [], 1⟩

/-- Claim C8 is false on the code as stated: `create_ticket` stores the
stripped title, so a title with surrounding whitespace does not round-trip
equal to the supplied value. -/
theorem C8_counterexample :
    ∃ db' t, create_ticket C8db " hi " "d" "Low" (some "c@x.com") 5 = Except.ok (db', t) ∧
      get_ticket db' t.id = some t ∧ t.title ≠ " hi " := by
  refine ⟨⟨[], [⟨1, "hi", "d", "Low", "Open", none, some "c@x.com", 5, 5, none, none⟩],
    [⟨1, "created", none, some "Open", "c@x.com", 5⟩], 2⟩,
    ⟨1, "hi", "d", "Low", "Open", none, some "c@x.com", 5, 5, none, none⟩,
    by decide, by decide, by decide⟩

/-- Claim C8 (amended): creating a ticket and refetching it by the returned
id yields the supplied description, priority and creator, status Open and
no assignee; the stored title is the supplied title stripped of surrounding
whitespace (equal to the input whenever the input carries none). -/
theorem C8_round_trip_amended (db : DB) (title desc prio : String) (cb : Option String)
    (now : Nat) (hfresh : ∀ u ∈ db.tickets, u.id ≠ db.next_id)
    (h1 : pyStrip title ≠ "") (h2 : VALID_PRIORITIES.contains prio) :
    ∃ db' t, create_ticket db title desc prio cb now = Except.ok (db', t) ∧
      get_ticket db' t.id = some t ∧
      t.title = pyStrip title ∧ t.description = desc ∧ t.priority = prio ∧
      t.status = "Open" ∧ t.assigned_to = none ∧ t.created_by = cb :=
  ⟨createDB db title desc prio cb now, newTicketOf db title desc prio cb now,
    create_ticket_ok db title desc prio cb now h1 h2 hfresh,
    get_ticket_createDB db title desc prio cb now hfresh,
    rfl, rfl, rfl, rfl, rfl, rfl⟩

theorem C8_witness :
    ∃ db' t, create_ticket C8db "Hello" "d" "High" (some "c@x.com") 5 = Except.ok (db', t) ∧
      get_ticket db' t.id = some t ∧
      t.title = pyStrip "Hello" ∧ t.description = "d" ∧ t.priority = "High" ∧
      t.status = "Open" ∧ t.assigned_to = none ∧ t.created_by = some "c@x.com" :=
  C8_round_trip_amended C8db "Hello" "d" "High" (some "c@x.com") 5
    (by decide) (by decide) (by decide)

theorem C7_witness :
    ∃ db' t, create_ticket C8db "Hello" "d" "High" (some "c@x.com") 5 = Except.ok (db', t) ∧
      (t.status = "Open" ∧ t.assigned_to = none ∧ t.created_at = 5 ∧
        t.updated_at = 5 ∧ t.title = pyStrip "Hello" ∧
        db'.history = C8db.history ++
          [⟨t.id, "created", none, some "Open", "c@x.com", 5⟩]) := by
  refine ⟨⟨[], [⟨1, "Hello", "d", "High", "Open", none, some "c@x.com", 5, 5, none, none⟩],
    [⟨1, "created", none, some "Open", "c@x.com", 5⟩], 2⟩,
    ⟨1, "Hello", "d", "High", "Open", none, some "c@x.com", 5, 5, none, none⟩,
    by decide, ?_⟩
  exact (C7_create_ticket_contract C8db "Hello" "d" "High" (some "c@x.com") 5
    (by decide)).2 _ _ (by decide)

/-- Claim C6: `auto_assign_ticket` picks the head of the capacity-descending
staff list; with no helpers, or a saturated head (remaining capacity at or
below zero), it returns none and leaves the store untouched; otherwise it
assigns the ticket to that helper through the lifecycle update and returns
the helper's email. -/
theorem C6_auto_assign_contract (db : DB) (tid : Nat) (cb : String) (now : Nat) :
    ((get_available_staff db).Sorted capGE) ∧
    (get_available_staff db = [] → auto_assign_ticket db tid cb now = (db, none)) ∧
    (∀ best rest, get_available_staff db = best :: rest →
        best.available_capacity ≤ 0 → auto_assign_ticket db tid cb now = (db, none)) ∧
    (∀ best rest t, get_available_staff db = best :: rest →
        0 < best.available_capacity → get_ticket db tid = some t →
        (auto_assign_ticket db tid cb now).2 = some best.email ∧
        ∃ t', get_ticket (auto_assign_ticket db tid cb now).1 tid = some t' ∧
          t'.assigned_to = some best.email) := by
  refine ⟨List.sorted_insertionSort capGE _, ?_, ?_, ?_⟩
  · intro h
    unfold auto_assign_ticket
    rw [h]
  · intro best rest h hle
    unfold auto_assign_ticket
    rw [h]
    dsimp only
    rw [if_pos hle]
  · intro best rest t h hpos ht
    have hv : ¬ (pyTruthy none ∧
        ¬ VALID_STATUSES.contains ((none : Option String).getD "")) := by
      rintro ⟨hp, -⟩
      simp [pyTruthy] at hp
    have hchar := update_ticket_char db tid none (some best.email) (some cb) now t hv ht
    have hre : reassign_ticket db tid best.email cb now =
        (updDB db tid t none (some best.email) (some cb) now, true) := by
      unfold reassign_ticket
      rw [ht]
      dsimp only
      rw [hchar]
    have htid : (ticketAfterUpdate t none (some best.email) now).id = tid :=
      (ticketAfterUpdate_id _ _ _ _).trans (get_ticket_some_id ht)
    have hfind : get_ticket (updDB db tid t none (some best.email) (some cb) now) tid =
        some (ticketAfterUpdate t none (some best.email) now) :=
      find?_replaceTicket_self db.tickets tid t _ ht htid
    have hassigned : (ticketAfterUpdate t none (some best.email) now).assigned_to =
        some best.email := by
      rw [ticketAfterUpdate_assigned_to]
      unfold assignChangeOf
      dsimp only
      split_ifs with hif
      · rfl
      · rw [not_not] at hif
        exact hif
    have hres : auto_assign_ticket db tid cb now =
        (updDB db tid t none (some best.email) (some cb) now, some best.email) := by
      unfold auto_assign_ticket
      rw [h]
      dsimp only
      rw [if_neg (not_le.mpr hpos), hre]
      rfl
    rw [hres]
    exact ⟨rfl, ticketAfterUpdate t none (some best.email) now, hfind, hassigned⟩

def C6db : DB :=
  ⟨[⟨"h1@x.com", "H1", "helper", true⟩, ⟨"h2@x.com", "H2", "helper", true⟩],
   [⟨1, "t", "", "Low", "Open", some "h1@x.com", none, 1, 1, none, none⟩], [], 2⟩

theorem C6_witness :
    (auto_assign_ticket C6db 1 "admin@x.com" 7).2 = some "h2@x.com" ∧
    ∃ t', get_ticket (auto_assign_ticket C6db 1 "admin@x.com" 7).1 1 = some t' ∧
      t'.assigned_to = some "h2@x.com" :=
  (C6_auto_assign_contract C6db 1 "admin@x.com" 7).2.2.2
    ⟨"h2@x.com", "H2", 0, 20⟩ [⟨"h1@x.com", "H1", 1, 19⟩]
    ⟨1, "t", "", "Low", "Open", some "h1@x.com", none, 1, 1, none, none⟩
    (by decide) (by decide) (by decide)

/-! Claim C5: the scope filter and its composition. -/

theorem mem_get_all_tickets (db : DB) (f : Filters) (t : Ticket) :
    t ∈ get_all_tickets db f ↔ (t ∈ db.tickets ∧ matchesFilter t f = true) := by
  unfold get_all_tickets
  rw [List.mem_insertionSort]
  exact List.mem_filter

theorem dictUpdate_disjoint (base add : Filters)
    (hdis : ∀ kv ∈ (add : List (String × String)), ∀ kv0 ∈ (base : List (String × String)),
      kv.1 ≠ kv0.1) :
    dictUpdate base add = (base : List (String × String)) ++ add := by
  unfold dictUpdate
  have hmap : ∀ kv ∈ (base : List (String × String)),
      (add : List (String × String)).find? (fun kv2 => kv2.1 = kv.1) = none := by
    intro kv hkv
    rw [List.find?_eq_none]
    intro kv2 hkv2
    simpa using hdis kv2 hkv2 kv hkv
  have h1 : ∀ l : List (String × String),
      (∀ kv ∈ l, (add : List (String × String)).find? (fun kv2 => kv2.1 = kv.1) = none) →
      l.map (fun kv =>
        match (add : List (String × String)).find? (fun kv2 => kv2.1 = kv.1) with
        | some kv2 => (kv.1, kv2.2)
        | none => kv) = l := by
    intro l hl
    induction l with
    | nil => rfl
    | cons kv kvs ih =>
      have h0 := hl kv (List.mem_cons_self kv kvs)
      simp only [List.map_cons, h0]
      exact congrArg (kv :: .) (ih (fun v hv => hl v (List.mem_cons_of_mem kv hv)))
  have h2 : (add : List (String × String)).filter
      (fun kv2 => ¬ (base : List (String × String)).any (fun kv => kv.1 = kv2.1)) = add := by
    rw [List.filter_eq_self]
    intro kv2 hkv2
    rw [decide_eq_true_eq]
    rw [List.any_eq_true]
    rintro ⟨kv0, hkv0, hp⟩
    have hp' : kv0.1 = kv2.1 := by simpa using hp
    exact hdis kv2 hkv2 kv0 hkv0 hp'.symm
  rw [h1 base hmap, h2]

theorem matchesFilter_append (t : Ticket) (f g : List (String × String)) :
    matchesFilter t (f ++ g : List (String × String)) =
      (matchesFilter t f && matchesFilter t g) := by
  unfold matchesFilter
  exact List.all_append

theorem dictUpdate_nil : dictUpdate [] [] = [] := rfl

theorem dictUpdate_single_self (k v : String) : dictUpdate [(k, v)] [(k, v)] = [(k, v)] := by
  simp [dictUpdate, List.find?_cons]
  rfl

def C5db : DB :=
  ⟨[⟨"h1@x.com", "H1", "helper", true⟩],
   [⟨1, "t", "", "Low", "Open", some "h2@x.com", some "c@x.com", 1, 1, none, none⟩], [], 2⟩

/-- Claim C5 is false on the code as stated: combining the helper scope
filter with an administrator-supplied filter on the same key does not AND
the predicates — `dict.update` lets the extra filter replace the scope
condition, so the listing returns a ticket that violates the caller's
scope. -/
theorem C5_counterexample :
    get_user_tickets_filter C5db "h1@x.com" = [("assigned_to", "h1@x.com")] ∧
    get_accessible_tickets C5db "h1@x.com" [("assigned_to", "h2@x.com")] =
      [⟨1, "t", "", "Low", "Open", some "h2@x.com", some "c@x.com", 1, 1, none, none⟩] ∧
    matchesFilter ⟨1, "t", "", "Low", "Open", some "h2@x.com", some "c@x.com", 1, 1, none, none⟩
      [("assigned_to", "h1@x.com")] = false :=
  ⟨by decide, by decide, by decide⟩

/-- Claim C5 (amended): the scope filter is no restriction for an
administrator, `assigned_to = actor` for a helper, `created_by = actor` for
a requester, and for an unknown or inactive actor a sentinel
`created_by = "___NONEXISTENT___"` filter that matches no ticket whose
creator differs from that sentinel string; the filter is idempotent; and an
additional filter whose keys are disjoint from the scope filter's composes
as the logical AND of both predicates. On a shared key the additional
filter's value replaces the scope condition (Python `dict.update`). -/
theorem C5_scope_filter_amended (db : DB) (e : String) :
    (∀ u, get_user_by_email db e = some u → u.is_active →
      (u.role = ROLE_ADMIN → get_user_tickets_filter db e = []) ∧
      (u.role = ROLE_HELPER → get_user_tickets_filter db e = [("assigned_to", e)]) ∧
      (u.role = ROLE_CUSTOMER → get_user_tickets_filter db e = [("created_by", e)])) ∧
    ((get_user_by_email db e = none ∨
        (∃ u, get_user_by_email db e = some u ∧ ¬ u.is_active)) →
      get_user_tickets_filter db e = [("created_by", "___NONEXISTENT___")] ∧
      ∀ t : Ticket, t.created_by ≠ some "___NONEXISTENT___" →
        matchesFilter t [("created_by", "___NONEXISTENT___")] = false) ∧
    (dictUpdate (get_user_tickets_filter db e) (get_user_tickets_filter db e) =
      get_user_tickets_filter db e) ∧
    ((get_all_tickets db (get_user_tickets_filter db e)).filter
        (fun t => matchesFilter t (get_user_tickets_filter db e)) =
      get_all_tickets db (get_user_tickets_filter db e)) ∧
    (∀ add : Filters,
      (∀ kv ∈ (add : List (String × String)),
        ∀ kv0 ∈ (get_user_tickets_filter db e : List (String × String)), kv.1 ≠ kv0.1) →
      ∀ t, t ∈ get_accessible_tickets db e add ↔
        (t ∈ db.tickets ∧ matchesFilter t (get_user_tickets_filter db e) = true ∧
          matchesFilter t add = true)) := by
  refine ⟨?_, ?_, ?_, ?_, ?_⟩
  · intro u hu hact
    refine ⟨?_, ?_, ?_⟩
    · intro hrole
      unfold get_user_tickets_filter
      rw [hu]
      dsimp only
      rw [if_neg (not_not_intro hact), if_pos hrole]
    · intro hrole
      unfold get_user_tickets_filter
      rw [hu]
      dsimp only
      rw [if_neg (not_not_intro hact), if_neg (by rw [hrole]; decide), if_pos hrole]
    · intro hrole
      unfold get_user_tickets_filter
      rw [hu]
      dsimp only
      rw [if_neg (not_not_intro hact), if_neg (by rw [hrole]; decide),
        if_neg (by rw [hrole]; decide), if_pos hrole]
  · intro hbad
    have hfil : get_user_tickets_filter db e = [("created_by", "___NONEXISTENT___")] := by
      rcases hbad with hnone | ⟨u, hu, hact⟩
      · unfold get_user_tickets_filter
        rw [hnone]
      · unfold get_user_tickets_filter
        rw [hu]
        dsimp only
        rw [if_pos hact]
    refine ⟨hfil, ?_⟩
    intro t hne
    simp [matchesFilter, allowedFilterKeys, ticketField, hne]
  · unfold get_user_tickets_filter
    cases get_user_by_email db e with
    | none => exact dictUpdate_single_self _ _
    | some u =>
      dsimp only
      split_ifs <;>
        first
          | exact dictUpdate_single_self _ _
          | exact dictUpdate_nil
  · rw [List.filter_eq_self]
    intro t htmem
    have := (mem_get_all_tickets db (get_user_tickets_filter db e) t).mp htmem
    exact this.2
  · intro add hdis t
    unfold get_accessible_tickets
    rw [dictUpdate_disjoint _ _ hdis]
    rw [show get_all_tickets db
        ((get_user_tickets_filter db e : List (String × String)) ++
          (add : List (String × String))) =
      get_all_tickets db
        (((get_user_tickets_filter db e : List (String × String)) ++
          (add : List (String × String)) : List (String × String)) : Filters) from rfl]
    rw [mem_get_all_tickets]
    rw [matchesFilter_append]
    simp [Bool.and_eq_true, and_assoc]

def C5wt : Ticket := ⟨1, "t", "", "Low", "Open", some "h1@x.com", some "c@x.com", 1, 1, none, none⟩

def C5wdb : DB := ⟨[⟨"h1@x.com", "H1", "helper", true⟩], [C5wt], [], 2⟩

theorem C5_witness :
    C5wt ∈ get_accessible_tickets C5wdb "h1@x.com" [("status", "Open")] ↔
      (C5wt ∈ C5wdb.tickets ∧
        matchesFilter C5wt (get_user_tickets_filter C5wdb "h1@x.com") = true ∧
        matchesFilter C5wt [("status", "Open")] = true) :=
  (C5_scope_filter_amended C5wdb "h1@x.com").2.2.2.2 [("status", "Open")] (by decide) C5wt

/-! Claim C3: the rebalancer refines the spec's greedy algorithm. -/

theorem reassign_ticket_present (db : DB) (i : Nat) (a cb : String) (now : Nat) (t : Ticket)
    (ht : get_ticket db i = some t) :
    reassign_ticket db i a cb now = (updDB db i t none (some a) (some cb) now, true) := by
  unfold reassign_ticket
  rw [ht]
  dsimp only
  rw [update_ticket_char db i none (some a) (some cb) now t
    (by rintro ⟨hp, -⟩; simp [pyTruthy] at hp) ht]

theorem get_ticket_updDB_isSome (db : DB) (i : Nat) (t : Ticket) (st as cb : Option String)
    (now : Nat) (ht : get_ticket db i = some t) (j : Nat) :
    (get_ticket (updDB db i t st as cb now) j).isSome = (get_ticket db j).isSome :=
  find?_replaceTicket_isSome db.tickets i j _
    ((ticketAfterUpdate_id _ _ _ _).trans (get_ticket_some_id ht))

theorem mem_tickets_get_ticket_isSome (db : DB) (t : Ticket) (h : t ∈ db.tickets) :
    (get_ticket db t.id).isSome := by
  unfold get_ticket
  rw [List.find?_isSome]
  exact ⟨t, h, by simp⟩

theorem pyTrunc_eq_floor {q : ℚ} (h : 0 ≤ q) : pyTrunc q = ⌊q⌋ := by
  have h2 : 0 ≤ q.num := Rat.num_nonneg.mpr h
  unfold pyTrunc
  rw [if_pos h2]
  have h1 : ⌊q⌋ = q.num / (q.den : ℤ) := by
    conv_lhs => rw [← Rat.num_div_den q]
    exact Rat.floor_intCast_div_natCast q.num q.den
  rw [h1]
  lift q.num to ℕ using h2 with m hm
  rw [Int.toNat_natCast]
  exact Int.ofNat_ediv m q.den

theorem balanceInner_cons_ok (cb : String) (now : Nat) (t : Ticket) (ts : List Ticket)
    (target : StaffInfo) (rest : List StaffInfo) (db db2 : DB) (n : Nat)
    (hre : reassign_ticket db t.id target.email cb now = (db2, true)) :
    balanceInner cb now (t :: ts) (target :: rest) db n =
      balanceInner cb now ts
        (List.insertionSort loadLE
          ({ target with current_tickets := target.current_tickets + 1 } :: rest))
        db2 (n + 1) := by
  conv_lhs => rw [balanceInner]
  rw [hre]

theorem specMoveTickets_cons (cb : String) (now : Nat) (t : Ticket) (ts : List Ticket)
    (target : StaffInfo) (pool : List StaffInfo) (db : DB) (n : Nat) :
    specMoveTickets cb now (t :: ts) (target :: pool) db n =
      specMoveTickets cb now ts
        (List.orderedInsert loadLE
          { target with current_tickets := target.current_tickets + 1 } pool)
        (reassign_ticket db t.id target.email cb now).1 (n + 1) := rfl

theorem balanceInner_eq_spec (cb : String) (now : Nat) :
    ∀ (ts : List Ticket) (pool : List StaffInfo) (db : DB) (n : Nat),
      pool.Sorted loadLE → (∀ t ∈ ts, (get_ticket db t.id).isSome) →
      balanceInner cb now ts pool db n = specMoveTickets cb now ts pool db n ∧
      (balanceInner cb now ts pool db n).1.Sorted loadLE ∧
      (∀ j, (get_ticket (balanceInner cb now ts pool db n).2.1 j).isSome =
        (get_ticket db j).isSome) := by
  intro ts
  induction ts with
  | nil =>
    intro pool db n hsort _
    exact ⟨rfl, hsort, fun j => rfl⟩
  | cons t ts ih =>
    intro pool db n hsort hpres
    cases pool with
    | nil => exact ⟨rfl, List.sorted_nil, fun j => rfl⟩
    | cons target rest =>
      have htp : (get_ticket db t.id).isSome := hpres t (List.mem_cons_self _ _)
      obtain ⟨t0, ht0⟩ := Option.isSome_iff_exists.mp htp
      have hre := reassign_ticket_present db t.id target.email cb now t0 ht0
      have hrest : rest.Sorted loadLE := hsort.of_cons
      have hpoolEq : List.insertionSort loadLE
          ({ target with current_tickets := target.current_tickets + 1 } :: rest) =
          List.orderedInsert loadLE
            { target with current_tickets := target.current_tickets + 1 } rest := by
        show List.orderedInsert loadLE _ (List.insertionSort loadLE rest) = _
        rw [hrest.insertionSort_eq]
      have hsort' : (List.orderedInsert loadLE
          { target with current_tickets := target.current_tickets + 1 } rest).Sorted loadLE :=
        hrest.orderedInsert _ rest
      have hpres' : ∀ u ∈ ts,
          (get_ticket (updDB db t.id t0 none (some target.email) (some cb) now) u.id).isSome := by
        intro u hu
        rw [get_ticket_updDB_isSome db t.id t0 none (some target.email) (some cb) now ht0]
        exact hpres u (List.mem_cons_of_mem t hu)
      obtain ⟨heq, hsort'', hpres''⟩ := ih
        (List.orderedInsert loadLE
          { target with current_tickets := target.current_tickets + 1 } rest)
        (updDB db t.id t0 none (some target.email) (some cb) now) (n + 1) hsort' hpres'
      rw [balanceInner_cons_ok cb now t ts target rest db _ n hre, hpoolEq,
        specMoveTickets_cons, hre]
      refine ⟨heq, hsort'', ?_⟩
      intro j
      rw [hpres'' j]
      exact get_ticket_updDB_isSome db t.id t0 none (some target.email) (some cb) now ht0 j

theorem balanceOuter_eq_spec (cb : String) (now : Nat) (avg : ℚ) :
    ∀ (hsl : List StaffInfo) (pool : List StaffInfo) (db : DB) (n : Nat),
      pool.Sorted loadLE → (∀ h ∈ hsl, avg + 2 < (h.current_tickets : ℚ)) →
      balanceOuter cb now avg hsl pool db n = specBalanceOuter cb now avg hsl pool db n := by
  intro hsl
  induction hsl with
  | nil => intro pool db n _ _; rfl
  | cons h hs ih =>
    intro pool db n hsort hover
    have hover1 := hover h (List.mem_cons_self _ _)
    have hq : (0 : ℚ) ≤ (h.current_tickets : ℚ) - avg := by linarith
    have hex : pyTrunc ((h.current_tickets : ℚ) - avg) = ⌊(h.current_tickets : ℚ) - avg⌋ :=
      pyTrunc_eq_floor hq
    have hpresent : ∀ t ∈ (get_all_tickets db
        [("assigned_to", h.email), ("status", "Open")]).take
          (⌊(h.current_tickets : ℚ) - avg⌋).toNat,
        (get_ticket db t.id).isSome := by
      intro t htm
      have hmem := (mem_get_all_tickets db _ t).mp (List.mem_of_mem_take htm)
      exact mem_tickets_get_ticket_isSome db t hmem.1
    obtain ⟨heq, hsort', hpres'⟩ := balanceInner_eq_spec cb now
      ((get_all_tickets db [("assigned_to", h.email), ("status", "Open")]).take
        (⌊(h.current_tickets : ℚ) - avg⌋).toNat) pool db n hsort hpresent
    show balanceOuter cb now avg (h :: hs) pool db n = _
    unfold balanceOuter specBalanceOuter
    dsimp only
    rw [heq] at hsort'
    rw [hex, heq]
    exact ih _ _ _ hsort' (fun x hx => hover x (List.mem_cons_of_mem h hx))

/-- Claim C3: `balance_workload` computes exactly what the spec's greedy
streaming rebalancer computes — same final store, same reassignment count,
same reported average — for every store, every changer and every clock; in
particular with fewer than two helpers it is a no-op that moves nothing. -/
theorem C3_balance_workload_refines_spec (db : DB) (cb : String) (now : Nat) :
    balance_workload db cb now = balanceWorkloadSpec db cb now ∧
    ((get_available_staff db).length < 2 →
      balance_workload db cb now = (db, ⟨0, none⟩)) := by
  constructor
  case right =>
    intro hlen
    unfold balance_workload
    rw [if_pos hlen]
  unfold balance_workload balanceWorkloadSpec
  by_cases hlen : (get_available_staff db).length < 2
  · rw [if_pos hlen, if_pos hlen]
  · rw [if_neg hlen, if_neg hlen]
    dsimp only
    have hsorted : (List.insertionSort loadLE
        ((get_available_staff db).filter
          (fun s => (s.current_tickets : ℚ) < averageLoad (get_available_staff db)))).Sorted
        loadLE :=
      List.sorted_insertionSort loadLE _
    have hover : ∀ h ∈ (get_available_staff db).filter
        (fun s => averageLoad (get_available_staff db) + 2 < (s.current_tickets : ℚ)),
        averageLoad (get_available_staff db) + 2 < (h.current_tickets : ℚ) := by
      intro h hmem
      have := List.of_mem_filter hmem
      exact of_decide_eq_true this
    rw [balanceOuter_eq_spec cb now (averageLoad (get_available_staff db)) _ _ db 0
      hsorted hover]

def C3wdb : DB := ⟨[⟨"h1@x.com", "H1", "helper", true⟩], [], [], 1⟩

theorem C3_witness : balance_workload C3wdb "sys" 3 = (C3wdb, ⟨0, none⟩) :=
  (C3_balance_workload_refines_spec C3wdb "sys" 3).2 (by decide)

end Tickets
